import Mathlib

/-!
Verification development for the client-side session layer of a turn-based
number-elimination game (source: src/src/components/Game.tsx).

The component state and its handlers are shallowly embedded: React state and
refs become fields of `LocalState`, every socket/UI handler becomes a pure
function from state (and, where the handler arms timers, the current time in
milliseconds) to a new state together with the list of outbound messages it
emits.  Timers are modelled explicitly: each pending setTimeout is recorded by
its absolute firing time; `fireTimersAt` applies the callbacks due at a given
time.  The single cancellable error timeout (kept in the ref errorTimeout) is
one optional slot, while the elimination-banner timeouts carry no ref in the
source and hence accumulate in a list.
-/

/-- Mirror of the Player interface: name, selectedNumber, isEliminated,
placement, id. -/
structure Player where
  name : String
  selectedNumber : Option Nat
  isEliminated : Bool
  placement : Option Nat
  id : String
deriving Repr, DecidableEq

/-- Mirror of the GameState interface. -/
structure GameState where
  players : List Player
  numbers : List Nat
  currentTurn : Option String
  currentPlayerName : Option String
  gameStarted : Bool
  boardSize : Nat
deriving Repr, DecidableEq

/-- Mirror of the PlayerElimination interface (the elimination banner data). -/
structure PlayerElimination where
  playerName : String
  number : Nat
  placement : Nat
  totalPlayers : Nat
deriving Repr, DecidableEq

/-- The lobbyStep state: "menu" | "create" | "join" | "joining" | "creating". -/
inductive LobbyStep where
  | menu
  | create
  | join
  | joining
  | creating
deriving Repr, DecidableEq

/-- The component-local state: React useState values plus the refs that the
handlers read (playerNameRef, socketRef, justPickedNumber, errorTimeout).
socketPresent models socketRef.current being non-null; socketId models the
value of socketRef.current?.id (none when the ref is null or the id is
undefined); mySocketId is the useState value captured on the connect event.
errorTimerAt is the absolute firing time of the pending cancellable error
timeout; elimTimersAt and suppressTimersAt are the firing times of the
un-referenced (hence uncancellable) elimination-banner timeouts and of the
500 ms suppression-window timeouts. -/
structure LocalState where
  playerName : String
  gameState : GameState
  error : Option String
  gameOver : Bool
  eliminationInfo : Option PlayerElimination
  showStartScreen : Bool
  lobbyCode : Option String
  lobbyStep : LobbyStep
  mySocketId : Option String
  justPickedNumber : Bool
  socketPresent : Bool
  socketId : Option String
  errorTimerAt : Option Nat
  elimTimersAt : List Nat
  suppressTimersAt : List Nat
deriving Repr, DecidableEq

/-- Outbound (client to server) protocol messages. -/
inductive OutMsg where
  | selectNumber (n : Nat)
  | eliminateNumber (n : Nat)
  | startGame
  | joinLobby (code : String) (playerName : String)
  | createLobby (boardSize : Nat)
  | playerReadyForReplay
  | leaveLobby
deriving Repr, DecidableEq

/-- The initial useState game state: empty roster, numbers 1..20 via
Array.from of length 20 mapping i to i+1, no turn, not started, board 20. -/
def initialGameState : GameState :=
  { players := []
    numbers := (List.range 20).map (· + 1)
    currentTurn := none
    currentPlayerName := none
    gameStarted := false
    boardSize := 20 }

/-- The initial component state, before the mount effect assigns the socket
ref and before any event arrives. -/
def initialState : LocalState :=
  { playerName := ""
    gameState := initialGameState
    error := none
    gameOver := false
    eliminationInfo := none
    showStartScreen := true
    lobbyCode := none
    lobbyStep := LobbyStep.menu
    mySocketId := none
    justPickedNumber := false
    socketPresent := false
    socketId := none
    errorTimerAt := none
    elimTimersAt := []
    suppressTimersAt := [] }

/-- JavaScript strict equality between socketRef.current?.id and
gameState.currentTurn: undefined/null on either side never equals anything
(undefined === null is false), so the comparison is true exactly when both
sides are present strings and equal. -/
def jsEqOpt : Option String → Option String → Bool
  | some a, some b => a == b
  | _, _ => false

/-- The self-lookup players.find(p =&gt; p.id === mySocketId) followed by the
guard me && me.selectedNumber === null, as one boolean: the predicate compares
the participant id (a string) against mySocketId (string or null), which is
true exactly when mySocketId is some p.id. -/
def meUnselectedB (sid : Option String) (l : List Player) : Bool :=
  match l.find? (fun p => sid == some p.id) with
  | some me => me.selectedNumber == none
  | none => false

/-- The self-lookup by id on its own (used to state claims about the local
participant). -/
def findMe (s : LocalState) : Option Player :=
  s.gameState.players.find? (fun p => s.mySocketId == some p.id)

/-- handleNumberSelect: returns early on gameOver; otherwise clears the error,
sets the justPickedNumber ref and arms a 500 ms timeout resetting it, and then
emits selectNumber when the self-lookup finds an unselected local participant
(the emit itself goes through socketRef.current?.emit, so it also needs the
socket ref to be non-null). -/
def handleNumberSelect (now : Nat) (s : LocalState) (number : Nat) :
    LocalState × List OutMsg :=
  if s.gameOver then (s, [])
  else
    let s1 : LocalState :=
      { s with
        error := none
        justPickedNumber := true
        suppressTimersAt := s.suppressTimersAt ++ [now + 500] }
    if meUnselectedB s.mySocketId s.gameState.players then
      (s1, if s.socketPresent then [OutMsg.selectNumber number] else [])
    else (s1, [])

/-- handleNumberElimination: emits eliminateNumber exactly when the game has
started and socketRef.current?.id strictly equals gameState.currentTurn; it
touches no local state. -/
def handleNumberElimination (s : LocalState) (number : Nat) : List OutMsg :=
  if s.gameState.gameStarted && jsEqOpt s.socketId s.gameState.currentTurn then
    [OutMsg.eliminateNumber number]
  else []

/-- Whether the lobby-wait screen (the pre-start render branch) is shown:
the start-screen block is skipped when showStartScreen is false, and when
showStartScreen is true but lobbyStep is "joining" no start-screen case
matches and control falls through; then the gameOver branch must not apply
and the game must not have started. -/
def lobbyScreenShown (s : LocalState) : Bool :=
  (!s.showStartScreen || s.lobbyStep == LobbyStep.joining)
    && !s.gameOver && !s.gameState.gameStarted

/-- The guard gameState.players[0]?.id === mySocketId: indexing an empty list
yields undefined, which strictly equals nothing (not even null). -/
def headIsMe (sid : Option String) (l : List Player) : Bool :=
  match l.head? with
  | some p => sid == some p.id
  | none => false

/-- players.every(p =&gt; p.selectedNumber !== null). -/
def allSelectedB (l : List Player) : Bool :=
  l.all (fun p => !(p.selectedNumber == none))

/-- The Start Game button is rendered only on the lobby-wait screen, when the
roster has more than one entry and the participant at index 0 carries the
local socket id. -/
def startGameButtonVisible (s : LocalState) : Bool :=
  lobbyScreenShown s
    && decide (1 < s.gameState.players.length)
    && headIsMe s.mySocketId s.gameState.players

/-- Clicking Start Game: possible only where the button is rendered (and it is
disabled unless every participant has selected); the onClick re-checks that
every participant has a selectedNumber before emitting startGame through
socketRef.current?.emit. -/
def startGameClick (s : LocalState) : List OutMsg :=
  if startGameButtonVisible s && allSelectedB s.gameState.players then
    if s.socketPresent then [OutMsg.startGame] else []
  else []

/-- The number-selection buttons are rendered only on the lobby-wait screen
and only in the branch where the self-lookup finds an unselected local
participant. -/
def selectButtonsVisible (s : LocalState) : Bool :=
  lobbyScreenShown s && meUnselectedB s.mySocketId s.gameState.players

/-- Clicking a number on the selection grid: the click can only happen where
the button is rendered, and then runs handleNumberSelect. -/
def numberSelectClick (now : Nat) (s : LocalState) (number : Nat) :
    LocalState × List OutMsg :=
  if selectButtonsVisible s then handleNumberSelect now s number else (s, [])

/-- socket.on connect: capture the socket id into mySocketId (newSocket.id
may be undefined, hence the ?? null). -/
def onConnect (s : LocalState) (sid : Option String) : LocalState :=
  { s with mySocketId := sid, socketId := sid, socketPresent := true }

/-- socket.on playerList: replace the players field wholesale with the
payload; nothing else is touched. -/
def onPlayerList (s : LocalState) (players : List Player) : LocalState :=
  { s with gameState := { s.gameState with players := players } }

/-- socket.on gameStarted: set gameStarted and replace the turn fields and
the number pool from the payload. -/
def onGameStarted (s : LocalState) (currentTurn currentPlayerName : String)
    (numbers : List Nat) : LocalState :=
  { s with
    gameState :=
      { s.gameState with
        gameStarted := true
        currentTurn := some currentTurn
        currentPlayerName := some currentPlayerName
        numbers := numbers } }

/-- socket.on numberEliminated: replace the pool with the server-supplied
remainder and the turn fields from the payload. -/
def onNumberEliminated (s : LocalState) (remainingNumbers : List Nat)
    (currentTurn currentPlayerName : String) : LocalState :=
  { s with
    gameState :=
      { s.gameState with
        numbers := remainingNumbers
        currentTurn := some currentTurn
        currentPlayerName := some currentPlayerName } }

/-- socket.on error: if the justPickedNumber ref is set the message is
ignored outright (early return); otherwise the error is displayed, any
pending error timeout is cleared, and a fresh 3000 ms clear is armed in the
single errorTimeout slot. -/
def onError (now : Nat) (s : LocalState) (message : String) : LocalState :=
  if s.justPickedNumber then s
  else { s with error := some message, errorTimerAt := some (now + 3000) }

/-- socket.on playerEliminated: show the banner and arm a 3000 ms clear; the
timeout id is not stored anywhere, so any previously armed banner timeout
keeps running. -/
def onPlayerEliminated (now : Nat) (s : LocalState)
    (info : PlayerElimination) : LocalState :=
  { s with
    eliminationInfo := some info
    elimTimersAt := s.elimTimersAt ++ [now + 3000] }

/-- The whitespace set stripped by the JavaScript trim (restricted to the
common ASCII whitespace characters; names are ordinary text here). -/
def isJsWhitespace (c : Char) : Bool :=
  c = ' ' || c = '\t' || c = '\n' || c = '\r'

/-- The character list of str.trim(): leading and trailing whitespace
removed. -/
def trimmedChars (s : String) : List Char :=
  ((s.data.dropWhile isJsWhitespace).reverse.dropWhile isJsWhitespace).reverse

/-- socket.on lobbyCreated: record the code and move to the "creating" step;
then, when the trimmed stored player name (read from playerNameRef.current)
has at least 2 characters and the socket ref is non-null, auto-emit joinLobby
with the code and the stored name and leave the start screen. -/
def onLobbyCreated (s : LocalState) (code : String) :
    LocalState × List OutMsg :=
  let s1 : LocalState :=
    { s with lobbyCode := some code, lobbyStep := LobbyStep.creating }
  if 2 ≤ (trimmedChars s.playerName).length ∧ s.socketPresent then
    ({ s1 with showStartScreen := false },
      [OutMsg.joinLobby code s.playerName])
  else (s1, [])

/-- socket.on lobbyJoined: set boardSize from the payload and regenerate the
pool as Array.from of length boardSize mapping i to i+1; leave the start
screen. -/
def onLobbyJoined (s : LocalState) (boardSize : Nat) : LocalState :=
  { s with
    showStartScreen := false
    gameState :=
      { s.gameState with
        boardSize := boardSize
        numbers := (List.range boardSize).map (· + 1) } }

/-- Fire every timeout due at time t: the error timeout clears the error, an
elimination-banner timeout clears the banner, a suppression timeout resets
the justPickedNumber ref.  Fired timers are removed from the pending sets. -/
def fireTimersAt (t : Nat) (s : LocalState) : LocalState :=
  let s1 : LocalState :=
    if s.errorTimerAt = some t then
      { s with error := none, errorTimerAt := none }
    else s
  let s2 : LocalState :=
    if t ∈ s1.elimTimersAt then
      { s1 with
        eliminationInfo := none
        elimTimersAt := s1.elimTimersAt.filter (· ≠ t) }
    else s1
  if t ∈ s2.suppressTimersAt then
    { s2 with
      justPickedNumber := false
      suppressTimersAt := s2.suppressTimersAt.filter (· ≠ t) }
  else s2

/-- Relation between two rosters that differ at most in the display names:
same length, and pointwise the id, selectedNumber, isEliminated and placement
all agree. -/
def SameExceptName (p q : Player) : Prop :=
  p.id = q.id ∧ p.selectedNumber = q.selectedNumber
    ∧ p.isEliminated = q.isEliminated ∧ p.placement = q.placement

/-- Replace the roster of a local state, keeping every other field. -/
def withPlayers (s : LocalState) (ps : List Player) : LocalState :=
  { s with gameState := { s.gameState with players := ps } }

theorem jsEqOpt_eq_true_iff (a b : Option String) :
    jsEqOpt a b = true ↔ ∃ x, a = some x ∧ b = some x := by
  cases a <;> cases b <;> simp [jsEqOpt]
  exact eq_comm

theorem meUnselectedB_congr (sid : Option String) {l1 l2 : List Player}
    (h : List.Forall₂ SameExceptName l1 l2) :
    meUnselectedB sid l1 = meUnselectedB sid l2 := by
  induction h with
  | nil => rfl
  | cons hpq _ ih =>
      simp only [meUnselectedB, List.find?] at *
      rw [hpq.1]
      cases hq : (sid == some _) with
      | true => simp [hpq.2.1]
      | false => exact ih

theorem allSelectedB_congr {l1 l2 : List Player}
    (h : List.Forall₂ SameExceptName l1 l2) :
    allSelectedB l1 = allSelectedB l2 := by
  induction h with
  | nil => rfl
  | cons hpq _ ih =>
      simp only [allSelectedB, List.all_cons] at *
      rw [hpq.2.1, ih]

theorem headIsMe_congr (sid : Option String) {l1 l2 : List Player}
    (h : List.Forall₂ SameExceptName l1 l2) :
    headIsMe sid l1 = headIsMe sid l2 := by
  cases h with
  | nil => rfl
  | cons hpq _ => simp [headIsMe, hpq.1]

/-- C1: in the lobby-wait and playing phases, the three action gates — is it
my turn (handleNumberElimination), have I already picked
(handleNumberSelect), and am I the leader (the Start Game click) — compare
the captured self-identity against participant ids only, so two rosters that
differ only in display names yield the same outbound messages for each
action. -/
theorem c1_id_based_self_identification (s : LocalState) (ps' : List Player)
    (h : List.Forall₂ SameExceptName s.gameState.players ps')
    (now n m : Nat) :
    (handleNumberSelect now s n).2 = (handleNumberSelect now (withPlayers s ps') n).2
    ∧ handleNumberElimination s m = handleNumberElimination (withPlayers s ps') m
    ∧ startGameClick s = startGameClick (withPlayers s ps') := by
  refine ⟨?_, ?_, ?_⟩
  · have hm := meUnselectedB_congr s.mySocketId h
    simp only [handleNumberSelect, withPlayers, hm]
    by_cases hgo : s.gameOver = true
    · simp [hgo]
    · by_cases hu : meUnselectedB s.mySocketId ps' = true <;> simp [hgo, hu]
  · simp only [handleNumberElimination, withPlayers]
  · simp only [startGameClick, startGameButtonVisible, lobbyScreenShown, withPlayers]
    simp only [allSelectedB_congr h, headIsMe_congr s.mySocketId h, h.length_eq]

/-- Witness for C1: two concrete two-player rosters differing only in the
display names give identical gate results. -/
theorem c1_witness :
    (handleNumberSelect 0
      (withPlayers initialState
        [⟨"Alice", none, false, none, "idA"⟩, ⟨"Bob", some 3, false, none, "idB"⟩]) 5).2
    = (handleNumberSelect 0
      (withPlayers initialState
        [⟨"Alice2", none, false, none, "idA"⟩, ⟨"Bob2", some 3, false, none, "idB"⟩]) 5).2 :=
  (c1_id_based_self_identification
    (withPlayers initialState
      [⟨"Alice", none, false, none, "idA"⟩, ⟨"Bob", some 3, false, none, "idB"⟩])
    [⟨"Alice2", none, false, none, "idA"⟩, ⟨"Bob2", some 3, false, none, "idB"⟩]
    (List.Forall₂.cons ⟨rfl, rfl, rfl, rfl⟩
      (List.Forall₂.cons ⟨rfl, rfl, rfl, rfl⟩ List.Forall₂.nil))
    0 5 5).1

/-- C6: handleNumberElimination emits eliminateNumber exactly when the game
has started and the live socket id is present and equal to the turn holder
id; in every other state it emits nothing (and it never mutates local state,
being a pure emit guard). -/
theorem c6_eliminate_gate (s : LocalState) (n : Nat) :
    (handleNumberElimination s n = [OutMsg.eliminateNumber n]
      ↔ s.gameState.gameStarted = true
        ∧ ∃ x, s.socketId = some x ∧ s.gameState.currentTurn = some x)
    ∧ (¬ (s.gameState.gameStarted = true
        ∧ ∃ x, s.socketId = some x ∧ s.gameState.currentTurn = some x)
        → handleNumberElimination s n = []) := by
  constructor
  · constructor
    · intro hemit
      by_cases hb :
          (s.gameState.gameStarted && jsEqOpt s.socketId s.gameState.currentTurn) = true
      · rw [Bool.and_eq_true] at hb
        exact ⟨hb.1, (jsEqOpt_eq_true_iff _ _).mp hb.2⟩
      · unfold handleNumberElimination at hemit
        rw [if_neg hb] at hemit
        simp at hemit
    · rintro ⟨h1, x, h2, h3⟩
      unfold handleNumberElimination
      rw [if_pos (by
        rw [Bool.and_eq_true]
        exact ⟨h1, (jsEqOpt_eq_true_iff _ _).mpr ⟨x, h2, h3⟩⟩)]
  · intro hng
    unfold handleNumberElimination
    rw [if_neg]
    intro hb
    rw [Bool.and_eq_true] at hb
    exact hng ⟨hb.1, (jsEqOpt_eq_true_iff _ _).mp hb.2⟩

/-- Witness for C6: with the game started and the socket id equal to the turn
holder, the message is emitted; the equivalence is applied at that state. -/
theorem c6_witness :
    handleNumberElimination
      { initialState with
        socketId := some "me"
        gameState := { initialGameState with gameStarted := true, currentTurn := some "me" } } 4
    = [OutMsg.eliminateNumber 4] :=
  (c6_eliminate_gate
    { initialState with
      socketId := some "me"
      gameState := { initialGameState with gameStarted := true, currentTurn := some "me" } }
    4).1.mpr ⟨rfl, "me", rfl, rfl⟩

theorem meUnselectedB_iff (s : LocalState) :
    meUnselectedB s.mySocketId s.gameState.players = true
      ↔ ∃ me, findMe s = some me ∧ me.selectedNumber = none := by
  unfold meUnselectedB findMe
  cases h : s.gameState.players.find? (fun p => s.mySocketId == some p.id) with
  | none => simp
  | some me => simp

theorem headIsMe_iff (sid : Option String) (l : List Player) :
    headIsMe sid l = true ↔ ∃ p, l.head? = some p ∧ sid = some p.id := by
  unfold headIsMe
  cases l with
  | nil => simp
  | cons a t => simp

theorem allSelectedB_iff (l : List Player) :
    allSelectedB l = true ↔ ∀ p ∈ l, p.selectedNumber ≠ none := by
  unfold allSelectedB
  simp [List.all_eq_true]

/-- C2: a click on the number-selection grid sends selectNumber only when the
round has not started and the local participant, located by id, has no
recorded selection; and whenever the local snapshot already shows a selection
for the local participant, both the raw handler and the click are no-ops
emitting nothing, so a second invocation sends no second message. -/
theorem c2_select_idempotent (now : Nat) (s : LocalState) (n : Nat) :
    ((numberSelectClick now s n).2 ≠ [] →
       s.gameState.gameStarted = false
       ∧ ∃ me, findMe s = some me ∧ me.selectedNumber = none)
    ∧ ((∃ me, findMe s = some me ∧ me.selectedNumber ≠ none) →
       (handleNumberSelect now s n).2 = [] ∧ (numberSelectClick now s n).2 = []) := by
  constructor
  · intro hne
    unfold numberSelectClick at hne
    by_cases hv : selectButtonsVisible s = true
    · rw [if_pos hv] at hne
      unfold selectButtonsVisible at hv
      rw [Bool.and_eq_true] at hv
      have hscreen := hv.1
      unfold lobbyScreenShown at hscreen
      rw [Bool.and_eq_true, Bool.and_eq_true] at hscreen
      refine ⟨?_, (meUnselectedB_iff s).mp hv.2⟩
      simpa using hscreen.2
    · rw [if_neg hv] at hne
      exact absurd rfl hne
  · rintro ⟨me, hfind, hsel⟩
    have hmeb : meUnselectedB s.mySocketId s.gameState.players = false := by
      by_contra hcon
      rw [Bool.not_eq_false] at hcon
      rcases (meUnselectedB_iff s).mp hcon with ⟨me2, hf2, hs2⟩
      rw [hfind, Option.some_inj] at hf2
      subst hf2
      exact hsel hs2
    constructor
    · unfold handleNumberSelect
      by_cases hgo : s.gameOver = true <;> simp [hgo, hmeb]
    · unfold numberSelectClick selectButtonsVisible
      simp [hmeb]

/-- Witness for C2: in a concrete state whose local participant already
carries a selection, neither the handler nor the click emits anything. -/
theorem c2_witness :
    (handleNumberSelect 0
      { (withPlayers initialState [⟨"A", some 5, false, none, "me"⟩]) with
        mySocketId := some "me", socketPresent := true } 3).2 = []
    ∧ (numberSelectClick 0
      { (withPlayers initialState [⟨"A", some 5, false, none, "me"⟩]) with
        mySocketId := some "me", socketPresent := true } 3).2 = [] :=
  (c2_select_idempotent 0
    { (withPlayers initialState [⟨"A", some 5, false, none, "me"⟩]) with
      mySocketId := some "me", socketPresent := true } 3).2
    ⟨⟨"A", some 5, false, none, "me"⟩, by decide, by decide⟩

/-- C7: clicking Start Game emits startGame only when the participant at
roster index 0 carries the local id (the leader) and every participant has a
selectedNumber; when the local participant is not the leader the button is
not even rendered; and in every state violating the gate the click emits
nothing. -/
theorem c7_startGame_gate (s : LocalState) :
    (startGameClick s ≠ [] →
       (∃ p, s.gameState.players.head? = some p ∧ s.mySocketId = some p.id)
       ∧ ∀ p ∈ s.gameState.players, p.selectedNumber ≠ none)
    ∧ (¬ (∃ p, s.gameState.players.head? = some p ∧ s.mySocketId = some p.id) →
       startGameButtonVisible s = false ∧ startGameClick s = [])
    ∧ (¬ ((∃ p, s.gameState.players.head? = some p ∧ s.mySocketId = some p.id)
        ∧ ∀ p ∈ s.gameState.players, p.selectedNumber ≠ none) →
       startGameClick s = []) := by
  refine ⟨?_, ?_, ?_⟩
  · intro hne
    unfold startGameClick at hne
    by_cases hc : (startGameButtonVisible s && allSelectedB s.gameState.players) = true
    · rw [Bool.and_eq_true] at hc
      have hv := hc.1
      unfold startGameButtonVisible at hv
      rw [Bool.and_eq_true, Bool.and_eq_true] at hv
      exact ⟨(headIsMe_iff _ _).mp hv.2, (allSelectedB_iff _).mp hc.2⟩
    · rw [if_neg hc] at hne
      exact absurd rfl hne
  · intro hnl
    have hh : headIsMe s.mySocketId s.gameState.players = false := by
      by_contra hcon
      rw [Bool.not_eq_false] at hcon
      exact hnl ((headIsMe_iff _ _).mp hcon)
    constructor
    · unfold startGameButtonVisible
      simp [hh]
    · unfold startGameClick startGameButtonVisible
      simp [hh]
  · intro hng
    unfold startGameClick
    rw [if_neg]
    intro hc
    rw [Bool.and_eq_true] at hc
    have hv := hc.1
    unfold startGameButtonVisible at hv
    rw [Bool.and_eq_true, Bool.and_eq_true] at hv
    exact hng ⟨(headIsMe_iff _ _).mp hv.2, (allSelectedB_iff _).mp hc.2⟩

/-- Witness for C7: in the initial state (empty roster, no identity) the
local participant is not the leader, so the Start Game button is hidden and
the click emits nothing. -/
theorem c7_witness :
    startGameButtonVisible initialState = false ∧ startGameClick initialState = [] :=
  (c7_startGame_gate initialState).2.1
    (by rintro ⟨p, hp, h2⟩; simp [initialState, initialGameState] at hp)

/-- C9: whenever handleNumberSelect runs while the game is not over — also
when it emits nothing because the local participant already selected or is
absent from the roster — it clears any displayed error, sets the suppression
flag, and arms the 500 ms reset timeout, independently of the emit guard. -/
theorem c9_select_always_arms_suppression (now : Nat) (s : LocalState) (n : Nat)
    (h : s.gameOver = false) :
    (handleNumberSelect now s n).1.error = none
    ∧ (handleNumberSelect now s n).1.justPickedNumber = true
    ∧ (handleNumberSelect now s n).1.suppressTimersAt
        = s.suppressTimersAt ++ [now + 500] := by
  unfold handleNumberSelect
  by_cases hu : meUnselectedB s.mySocketId s.gameState.players = true <;>
    simp [h, hu]

/-- Witness for C9: a state with an empty roster (so nothing is emitted) and
a displayed error still gets the error cleared and the window armed. -/
theorem c9_witness :
    ((handleNumberSelect 100 { initialState with error := some "boom" } 7).1.error = none
      ∧ (handleNumberSelect 100 { initialState with error := some "boom" } 7).1.justPickedNumber = true
      ∧ (handleNumberSelect 100 { initialState with error := some "boom" } 7).1.suppressTimersAt = [] ++ [100 + 500])
    ∧ (handleNumberSelect 100 { initialState with error := some "boom" } 7).2 = [] :=
  ⟨c9_select_always_arms_suppression 100 { initialState with error := some "boom" } 7 rfl,
    by decide⟩

/-- C3: a generic error event arriving while the justPickedNumber suppression
flag is set leaves the whole local state untouched — nothing is displayed,
nothing is queued, no timer changes; in particular an error arriving right
after a handleNumberSelect call (which sets the flag) is dropped. -/
theorem c3_error_suppressed (now now2 : Nat) (s : LocalState) (m : String) (n : Nat) :
    (s.justPickedNumber = true → onError now s m = s)
    ∧ (s.gameOver = false →
        onError now2 (handleNumberSelect now s n).1 m = (handleNumberSelect now s n).1) := by
  constructor
  · intro h
    unfold onError
    rw [if_pos h]
  · intro hgo
    have hflag : (handleNumberSelect now s n).1.justPickedNumber = true := by
      unfold handleNumberSelect
      by_cases hu : meUnselectedB s.mySocketId s.gameState.players = true <;>
        simp [hgo, hu]
    unfold onError
    rw [if_pos hflag]

/-- Witness for C3: the scenario of an error 100 ms after a selectNumber at
time 0 — the state after the selection is exactly the state after the
selection plus the error event. -/
theorem c3_witness :
    onError 100 (handleNumberSelect 0 initialState 7).1 "duplicate pick"
      = (handleNumberSelect 0 initialState 7).1 :=
  (c3_error_suppressed 0 100 initialState "duplicate pick" 7).2 rfl

/-- C10: on lobbyCreated the code is recorded and the step moves to
"creating" (awaiting the lobby); joinLobby with the received code and the
stored name is auto-emitted only when the trimmed stored name has at least 2
characters (and the socket ref is live), in which case the start screen is
left; with a shorter name nothing is emitted and the client stays on the
start screen. -/
theorem c10_lobbyCreated_autojoin (s : LocalState) (code : String) :
    ((onLobbyCreated s code).1.lobbyCode = some code)
    ∧ ((onLobbyCreated s code).1.lobbyStep = LobbyStep.creating)
    ∧ ((onLobbyCreated s code).2 ≠ [] → 2 ≤ (trimmedChars s.playerName).length)
    ∧ (2 ≤ (trimmedChars s.playerName).length → s.socketPresent = true →
        (onLobbyCreated s code).2 = [OutMsg.joinLobby code s.playerName]
        ∧ (onLobbyCreated s code).1.showStartScreen = false)
    ∧ ((trimmedChars s.playerName).length < 2 →
        (onLobbyCreated s code).2 = []
        ∧ (onLobbyCreated s code).1.showStartScreen = s.showStartScreen) := by
  refine ⟨?_, ?_, ?_, ?_, ?_⟩
  · unfold onLobbyCreated
    by_cases hc : 2 ≤ (trimmedChars s.playerName).length ∧ s.socketPresent = true
    · rw [if_pos hc]
    · rw [if_neg hc]
  · unfold onLobbyCreated
    by_cases hc : 2 ≤ (trimmedChars s.playerName).length ∧ s.socketPresent = true
    · rw [if_pos hc]
    · rw [if_neg hc]
  · intro hne
    unfold onLobbyCreated at hne
    by_cases hc : 2 ≤ (trimmedChars s.playerName).length ∧ s.socketPresent = true
    · exact hc.1
    · rw [if_neg hc] at hne
      exact absurd rfl hne
  · intro hlen hsock
    unfold onLobbyCreated
    rw [if_pos ⟨hlen, hsock⟩]
    exact ⟨rfl, rfl⟩
  · intro hshort
    unfold onLobbyCreated
    rw [if_neg (by rintro ⟨h1, _⟩; omega)]
    exact ⟨rfl, rfl⟩

/-- Witness for C10: with stored name "Jo" and a live socket, the creator
auto-joins with the received code; with the empty stored name of the initial
state, nothing is emitted and the start screen stays. -/
theorem c10_witness :
    ((onLobbyCreated { initialState with playerName := "Jo", socketPresent := true } "AB12C").2
        = [OutMsg.joinLobby "AB12C" "Jo"]
      ∧ (onLobbyCreated { initialState with playerName := "Jo", socketPresent := true } "AB12C").1.showStartScreen = false)
    ∧ ((onLobbyCreated initialState "AB12C").2 = []
      ∧ (onLobbyCreated initialState "AB12C").1.showStartScreen = initialState.showStartScreen) :=
  ⟨(c10_lobbyCreated_autojoin { initialState with playerName := "Jo", socketPresent := true } "AB12C").2.2.2.1
      (by decide) rfl,
    (c10_lobbyCreated_autojoin initialState "AB12C").2.2.2.2 (by decide)⟩

theorem foldl_onPlayerList_players (events : List (List Player)) (s : LocalState)
    (k : Nat) (h : k < events.length) :
    ((events.take (k + 1)).foldl onPlayerList s).gameState.players
      = events.get ⟨k, h⟩ := by
  induction events generalizing s k with
  | nil => cases h
  | cons e es ih =>
      cases k with
      | zero => simp [onPlayerList]
      | succ k =>
          simp only [List.take_succ_cons, List.foldl_cons, List.get_cons_succ]
          exact ih (onPlayerList s e) k (Nat.lt_of_succ_lt_succ h)

/-- C4: a playerList event replaces the participants wholesale — after any
sequence of roster events the roster equals exactly the payload of the last
applied event — and leaves every other snapshot field (numbers, currentTurn,
currentPlayerName, gameStarted, boardSize) untouched. -/
theorem c4_roster_wholesale (s : LocalState) (ps : List Player)
    (events : List (List Player)) (k : Nat) (h : k < events.length) :
    ((events.take (k + 1)).foldl onPlayerList s).gameState.players
        = events.get ⟨k, h⟩
    ∧ (onPlayerList s ps).gameState.players = ps
    ∧ (onPlayerList s ps).gameState.numbers = s.gameState.numbers
    ∧ (onPlayerList s ps).gameState.currentTurn = s.gameState.currentTurn
    ∧ (onPlayerList s ps).gameState.currentPlayerName = s.gameState.currentPlayerName
    ∧ (onPlayerList s ps).gameState.gameStarted = s.gameState.gameStarted
    ∧ (onPlayerList s ps).gameState.boardSize = s.gameState.boardSize :=
  ⟨foldl_onPlayerList_players events s k h, rfl, rfl, rfl, rfl, rfl, rfl⟩

/-- Witness for C4: applying the first two of two concrete roster events
leaves exactly the second payload as the roster. -/
theorem c4_witness :
    ((([[⟨"A", none, false, none, "a"⟩], [⟨"B", some 2, false, none, "b"⟩]].take 2).foldl
        onPlayerList initialState).gameState.players
      = [⟨"B", some 2, false, none, "b"⟩])
    ∧ (onPlayerList initialState [⟨"A", none, false, none, "a"⟩]).gameState.numbers
      = initialState.gameState.numbers :=
  ⟨(c4_roster_wholesale initialState []
      [[⟨"A", none, false, none, "a"⟩], [⟨"B", some 2, false, none, "b"⟩]]
      1 (by decide)).1,
    (c4_roster_wholesale initialState [⟨"A", none, false, none, "a"⟩]
      [[⟨"A", none, false, none, "a"⟩], [⟨"B", some 2, false, none, "b"⟩]]
      1 (by decide) |>.2.2.1)⟩

/-- C8: the lobbyJoined acknowledgment with boardSize b sets the snapshot
boardSize to b and replaces the pool with exactly the ordered range 1..b: the
derived list is precisely the numbers m with 1 ≤ m ≤ b in increasing order. -/
theorem c8_lobbyJoined_pool (s : LocalState) (b : Nat) :
    (onLobbyJoined s b).gameState.boardSize = b
    ∧ (onLobbyJoined s b).gameState.numbers = List.range' 1 b
    ∧ ∀ m : Nat, m ∈ (onLobbyJoined s b).gameState.numbers ↔ 1 ≤ m ∧ m ≤ b := by
  have hn : (onLobbyJoined s b).gameState.numbers = List.range' 1 b := by
    show (List.range b).map (· + 1) = List.range' 1 b
    rw [List.range'_eq_map_range]
    exact List.map_congr_left fun x _ => by omega
  refine ⟨rfl, hn, ?_⟩
  intro m
  rw [hn, List.mem_range'_1]
  omega

/-- Witness for C8: at board size 3 the regenerated pool is the range 1..3
and 5 is correctly excluded. -/
theorem c8_witness :
    (onLobbyJoined initialState 3).gameState.numbers = List.range' 1 3
    ∧ (5 ∈ (onLobbyJoined initialState 3).gameState.numbers ↔ 1 ≤ 5 ∧ 5 ≤ 3) :=
  ⟨(c8_lobbyJoined_pool initialState 3).2.1,
    (c8_lobbyJoined_pool initialState 3).2.2 5⟩

/-- C5 fails on the code: the playerEliminated handler never cancels the
previous clear timeout.  Concrete run: banner for Alice at time 0 (timer due
at 3000), banner for Bob at time 2000 (it replaces Alice, second timer due at
5000); when the clock reaches 3000 the stale timer from the Alice banner
fires and clears the Bob banner, only 1000 ms — not 3000 ms — after it
arrived, even though no superseding event followed it. -/
theorem c5_stale_timer_clears_newer_banner :
    ((onPlayerEliminated 2000
        (onPlayerEliminated 0 initialState ⟨"Alice", 7, 1, 3⟩)
        ⟨"Bob", 3, 2, 3⟩).eliminationInfo = some ⟨"Bob", 3, 2, 3⟩)
    ∧ ((onPlayerEliminated 2000
        (onPlayerEliminated 0 initialState ⟨"Alice", 7, 1, 3⟩)
        ⟨"Bob", 3, 2, 3⟩).elimTimersAt = [3000, 5000])
    ∧ ((fireTimersAt 3000
        (onPlayerEliminated 2000
          (onPlayerEliminated 0 initialState ⟨"Alice", 7, 1, 3⟩)
          ⟨"Bob", 3, 2, 3⟩)).eliminationInfo = none)
    ∧ (3000 : Nat) < 2000 + 3000 := by
  refine ⟨rfl, rfl, ?_, by omega⟩
  decide

/-- Contrast for C5: the generic-error handler does follow the
cancel-and-rearm discipline — its single timeout slot is overwritten, so
after a superseding error only the fresh 3000 ms timer is pending — while
each elimination banner stacks one more uncancellable timer. -/
theorem c5_error_handler_cancels (now : Nat) (s : LocalState) (m : String)
    (now2 : Nat) (s2 : LocalState) (info : PlayerElimination)
    (h : s.justPickedNumber = false) :
    (onError now s m).error = some m
    ∧ (onError now s m).errorTimerAt = some (now + 3000)
    ∧ (onPlayerEliminated now2 s2 info).eliminationInfo = some info
    ∧ (onPlayerEliminated now2 s2 info).elimTimersAt
        = s2.elimTimersAt ++ [now2 + 3000] := by
  unfold onError onPlayerEliminated
  rw [if_neg (by simp [h])]
  exact ⟨rfl, rfl, rfl, rfl⟩

/-- Witness for the C5 contrast theorem at a concrete state. -/
theorem c5_error_handler_cancels_witness :
    (onError 100 initialState "oops").error = some "oops"
    ∧ (onError 100 initialState "oops").errorTimerAt = some (100 + 3000)
    ∧ (onPlayerEliminated 0 initialState ⟨"A", 1, 1, 2⟩).eliminationInfo
        = some ⟨"A", 1, 1, 2⟩
    ∧ (onPlayerEliminated 0 initialState ⟨"A", 1, 1, 2⟩).elimTimersAt
        = initialState.elimTimersAt ++ [0 + 3000] :=
  c5_error_handler_cancels 100 initialState "oops" 0 initialState ⟨"A", 1, 1, 2⟩ rfl
